import Mathlib

/-!
Verification of the semester-progression / enrollment / resit workflow of the
mut-students-portal repository (src/portal/models.py, src/portal/views.py,
src/portal/utils.py, src/portal/signals.py).

The database is embedded as lists of rows; each Django `Model.save` /
`Model.clean` pair becomes a Lean function on that state.  A `clean` that
raises `ValidationError` becomes `Except.error msg`; since Django's
`full_clean` runs before any write, `Except.error` leaves the state untouched
(the caller keeps the old `DB`).  Timestamps (`timezone.now()`) are passed as
explicit `Nat`/`Int` parameters.  `DecimalField` marks and grade points are
embedded as `Rat`.  Columns that the modelled operations neither read nor
write (audit columns, fee/GPA snapshots, contact data, ...) are omitted.
-/

namespace Portal

/-- `AcademicYear` (models.py 87-112): only the columns read by `clean`/`save`. -/
structure AcademicYear where
  pk : Nat
  name : String
  is_current : Bool
  is_active : Bool
  deriving DecidableEq, Inhabited

/-- `Semester` (models.py 114-146).  `str(semester)` is `self.name`. -/
structure Semester where
  pk : Nat
  academic_year : Nat
  name : String
  semester_number : String
  is_current : Bool
  deriving DecidableEq, Inhabited

/-- `Student` (models.py 327-380): the progression columns only.
`current_semester` is a `CharField` with choices "1", "2", "3". -/
structure Student where
  id : Nat
  current_year : Nat
  current_semester : String
  deriving DecidableEq, Inhabited

/-- `Unit` (models.py 216-243); named `CourseUnit` here because `Unit` is taken in Lean. -/
structure CourseUnit where
  id : Nat
  code : String
  deriving DecidableEq, Inhabited

/-- `ProgrammeUnit` (models.py 245-272): the link from a programme unit to its unit. -/
structure ProgrammeUnit where
  id : Nat
  unit : Nat
  deriving DecidableEq, Inhabited

/-- `UnitAllocation` (models.py 291-325): the columns the workflow queries on. -/
structure UnitAllocation where
  programme_unit : Nat
  semester : Nat
  status : String
  deriving DecidableEq, Inhabited

/-- `UnitGradingSystem` (models.py 274-289).  Default ordering is
`['unit', '-min_marks']`. -/
structure UnitGradingSystem where
  unit : Nat
  grade : String
  min_marks : Rat
  max_marks : Rat
  grade_point : Rat
  is_pass : Bool
  deriving DecidableEq, Inhabited

/-- `SemesterResults` (models.py 505-552): the columns the workflow reads or
overwrites. -/
structure SemesterResults where
  id : Nat
  student : Nat
  programme_unit : Nat
  semester : Nat
  total_marks : Rat
  grade : String
  grade_point : Rat
  is_passed : Bool
  is_supplementary : Bool
  remarks : String
  deriving DecidableEq, Inhabited

/-- `SemesterReport` (models.py 1324-1428): progression and eligibility columns.
`eligibility_checked_at` holds the `timezone.now()` value of the last save. -/
structure SemesterReport where
  pk : Nat
  student : Nat
  to_semester : Nat
  to_year_of_study : Nat
  to_semester_number : String
  failed_units_count : Nat
  is_eligible : Bool
  eligibility_checked_at : Option Nat
  eligibility_remarks : String
  status : String
  deriving DecidableEq, Inhabited

/-- `ResitExam` (models.py 1432-1556). -/
structure ResitExam where
  pk : Nat
  student : Nat
  original_result : Nat
  resit_semester : Nat
  original_semester : Nat
  original_marks : Rat
  original_grade : String
  original_grade_point : Rat
  resit_marks : Option Rat
  resit_grade : String
  resit_grade_point : Option Rat
  status : String
  deriving DecidableEq, Inhabited

/-- `UnitEnrollment` (models.py 1558-1671). -/
structure UnitEnrollment where
  pk : Nat
  student : Nat
  semester_report : Nat
  programme_unit : Nat
  semester : Nat
  enrollment_type : String
  status : String
  deriving DecidableEq, Inhabited

/-- `UnitRegistration` (models.py 404-433): the columns `get_or_create` fills. -/
structure UnitRegistration where
  student : Nat
  programme_unit : Nat
  semester : Nat
  status : String
  is_retake : Bool
  deriving DecidableEq, Inhabited

/-- `EnrollmentPeriod` (models.py 1673-1711).  Date-times are embedded as `Int`;
the two resit dates are nullable. -/
structure EnrollmentPeriod where
  start_date : Int
  end_date : Int
  resit_start_date : Option Int
  resit_end_date : Option Int
  is_active : Bool
  deriving DecidableEq, Inhabited

/-- The relational store: one list of rows per table touched by the workflow. -/
structure DB where
  years : List AcademicYear
  semesters : List Semester
  students : List Student
  reports : List SemesterReport
  results : List SemesterResults
  resits : List ResitExam
  enrollments : List UnitEnrollment
  registrations : List UnitRegistration
  allocations : List UnitAllocation
  gradings : List UnitGradingSystem
  programmeUnits : List ProgrammeUnit
  units : List CourseUnit
  deriving DecidableEq, Inhabited

def emptyDB : DB :=
  { years := [], semesters := [], students := [], reports := [], results := []
    resits := [], enrollments := [], registrations := [], allocations := []
    gradings := [], programmeUnits := [], units := [] }

/-- Django `Model.save`: UPDATE the row with this key when one exists, INSERT
otherwise. -/
def upsertBy {α : Type} (key : α → Nat) (l : List α) (x : α) : List α :=
  if ∃ o ∈ l, key o = key x then l.map (fun o => if key o = key x then x else o)
  else l ++ [x]

/-- `str(semester)` = `semester.name`; "" stands for the exception a dangling
foreign key would raise. -/
def semesterNameOf (db : DB) (pk : Nat) : String :=
  ((db.semesters.find? (fun s => decide (s.pk = pk))).map (fun s => s.name)).getD ""

/-- `programme_unit.unit.code`; "" stands for the exception a dangling foreign
key would raise. -/
def unitCodeOf (db : DB) (pu : Nat) : String :=
  (((db.programmeUnits.find? (fun p => decide (p.id = pu))).bind
    (fun p => db.units.find? (fun u => decide (u.id = p.unit)))).map
      (fun u => u.code)).getD ""

/-- `int(student.current_semester)`: the `current_semester` column is a
`CharField` whose choices are exactly "1", "2", "3" (`Semester.SEMESTER_NAMES`),
so Python `int` is tabulated on those values. -/
def semToNat (s : String) : Nat :=
  if s = "1" then 1 else if s = "2" then 2 else if s = "3" then 3 else 0

/-- Next-(year, semester) computation inlined in `semester_report_view`
(src/portal/views.py 1001-1012).  The branch tests the literal `3`
(`if current_sem < 3`); the `programme_total_semesters` read on line 1004 is
not used in the computation. -/
def viewNextSemester (current_year : Nat) (current_semester : String) :
    Nat × String :=
  let current_sem := semToNat current_semester
  if current_sem < 3 then (current_year, toString (current_sem + 1))
  else (current_year + 1, "1")

/-- `calculate_next_semester_details` (src/portal/utils.py 45-71), restricted to
the three values its body reads: `student.current_year`,
`int(student.current_semester)` and `student.programme.total_semesters`.
Returns `(next_year, next_semester_number)`. -/
def calculate_next_semester_details (current_year : Nat)
    (current_semester : String) (programme_total_sems : Nat) : Nat × String :=
  let current_sem := semToNat current_semester
  let sems_per_year := if programme_total_sems % 3 = 0 then 3 else 2
  if current_sem < sems_per_year then (current_year, toString (current_sem + 1))
  else (current_year + 1, "1")

/-- Next-(year, semester) rule as the specification words it: increment the
semester number when it is strictly below the semesters-per-year of the
programme (3 when `total_semesters` is divisible by 3, else 2), otherwise roll
over to semester "1" of the next year. -/
def specNextSemester (current_year : Nat) (current_semester : String)
    (total_semesters : Nat) : Nat × String :=
  let sems_per_year := if total_semesters % 3 = 0 then 3 else 2
  let cur := semToNat current_semester
  if cur < sems_per_year then (current_year, toString (cur + 1))
  else (current_year + 1, "1")

/-- `EnrollmentPeriod.is_resit_enrollment_open` (models.py 1695-1700).  Python:
`if not self.resit_start_date or not self.resit_end_date: return False`, then
`self.is_active and self.resit_start_date <= now <= self.resit_end_date`; a
datetime object is always truthy, so the first guard fires exactly on `None`. -/
def EnrollmentPeriod.is_resit_enrollment_open (p : EnrollmentPeriod)
    (now : Int) : Bool :=
  if p.resit_start_date.isNone || p.resit_end_date.isNone then false
  else p.is_active && decide (p.resit_start_date.getD 0 ≤ now)
    && decide (now ≤ p.resit_end_date.getD 0)

/-- The `ValidationError` text of `SemesterReport.clean` (models.py 1384-1387).
The second sentence is a plain (non-f) string literal in the source, so the
braces appear verbatim in the message. -/
def ineligibleMsg (n : Nat) : String :=
  "Cannot report for semester. You have " ++ toString n ++ " failed units. " ++
  "You must clear at least \x7bself.failed_units_count - 2\x7d failed unit(s) before reporting."

/-- The `eligibility_remarks` text stamped by `SemesterReport.save`
(models.py 1402-1406). -/
def notEligibleRemark (n : Nat) : String :=
  "Not eligible: " ++ toString n ++ " failed units. " ++
  "Maximum allowed is 2 failed units."

/-- `SemesterReport.clean` (models.py 1380-1395): reject more than 2 failed
units, then reject when another report with status `approved` exists for the
same (student, to_semester), excluding this row's own pk. -/
def SemesterReport.clean (db : DB) (r : SemesterReport) : Except String Unit :=
  if r.failed_units_count > 2 then
    Except.error (ineligibleMsg r.failed_units_count)
  else if ∃ o ∈ db.reports, o.student = r.student ∧ o.to_semester = r.to_semester ∧
      o.status = "approved" ∧ o.pk ≠ r.pk then
    Except.error "You have already reported for this semester."
  else Except.ok ()

/-- The eligibility stamping at the top of `SemesterReport.save`
(models.py 1397-1406): recompute `is_eligible`, stamp
`eligibility_checked_at := timezone.now()`, and set the remark when not
eligible. -/
def stampEligibility (r : SemesterReport) (now : Nat) : SemesterReport :=
  { r with
    is_eligible := decide (r.failed_units_count ≤ 2)
    eligibility_checked_at := some now
    eligibility_remarks :=
      if r.failed_units_count ≤ 2 then r.eligibility_remarks
      else notEligibleRemark r.failed_units_count }

/-- The student-progression write-back of an approved report
(models.py 1410-1415): set the student's `current_year`/`current_semester` to
the report's `to_` values.  The post-save signal `update_student_progression`
(signals.py 15-22) repeats the same absolute assignment, so applying it once
captures the combined effect. -/
def advanceStudent (r : SemesterReport) (s : Student) : Student :=
  if s.id = r.student then
    { s with current_year := r.to_year_of_study,
             current_semester := r.to_semester_number }
  else s

/-- The write phase of `SemesterReport.save` after `full_clean` has passed:
persist the (already stamped) report, then, when its status is `approved`,
advance the student row. -/
def reportPostSave (db : DB) (r : SemesterReport) : DB :=
  let db1 : DB := { db with reports := upsertBy (fun o => o.pk) db.reports r }
  if r.status = "approved" then
    { db1 with students := db1.students.map (advanceStudent r) }
  else db1

/-- `SemesterReport.save` (models.py 1397-1415): stamp eligibility, run
`full_clean` (which raises before any write), then persist and, when approved,
advance the student. -/
def SemesterReport.save (db : DB) (r0 : SemesterReport) (now : Nat) :
    Except String (DB × SemesterReport) :=
  match SemesterReport.clean db (stampEligibility r0 now) with
  | Except.error e => Except.error e
  | Except.ok _ =>
    Except.ok (reportPostSave db (stampEligibility r0 now), stampEligibility r0 now)

/-- `AcademicYear.clean` (models.py 100-104): at most one current year. -/
def AcademicYear.clean (db : DB) (y : AcademicYear) : Except String Unit :=
  if y.is_current = true ∧ ∃ o ∈ db.years, o.is_current = true ∧ o.pk ≠ y.pk then
    Except.error "There can only be one current academic year."
  else Except.ok ()

/-- `AcademicYear.save` (models.py 106-108): `full_clean` then write. -/
def AcademicYear.save (db : DB) (y : AcademicYear) : Except String DB :=
  match AcademicYear.clean db y with
  | Except.error e => Except.error e
  | Except.ok _ => Except.ok { db with years := upsertBy (fun o => o.pk) db.years y }

/-- `Semester.clean` (models.py 137-141): at most one current semester. -/
def Semester.clean (db : DB) (s : Semester) : Except String Unit :=
  if s.is_current = true ∧ ∃ o ∈ db.semesters, o.is_current = true ∧ o.pk ≠ s.pk then
    Except.error "There can only be one current semester."
  else Except.ok ()

/-- `Semester` defines no `save` override, so a save goes through Django's
default `Model.save`, which performs no validation (`full_clean`/`clean` are
not called): the write always happens. -/
def Semester.save (db : DB) (s : Semester) : DB :=
  { db with semesters := upsertBy (fun o => o.pk) db.semesters s }

/-- `ResitExam.clean` (models.py 1488-1511): the unit of the original result
must have a dean-approved allocation in the resit semester, and no other resit
row may exist for the same (student, original_result, resit_semester). -/
def ResitExam.clean (db : DB) (e : ResitExam) : Except String Unit :=
  let programme_unit :=
    ((db.results.find? (fun r => decide (r.id = e.original_result))).map
      (fun r => r.programme_unit)).getD 0
  if ¬ ∃ a ∈ db.allocations, a.programme_unit = programme_unit ∧
      a.semester = e.resit_semester ∧ a.status = "approved_dean" then
    Except.error ("Unit " ++ unitCodeOf db programme_unit ++ " is not offered in " ++
      semesterNameOf db e.resit_semester ++ ". " ++
      "You can only register for resit when the unit is being offered.")
  else if ∃ o ∈ db.resits, o.student = e.student ∧
      o.original_result = e.original_result ∧
      o.resit_semester = e.resit_semester ∧ o.pk ≠ e.pk then
    Except.error "You have already registered for a resit of this unit in this semester."
  else Except.ok ()

/-- The remark written onto the original result when a resit completes
(models.py 1524). -/
def resitRemark (semName : String) (originalMarks : Rat) : String :=
  "Resit completed in " ++ semName ++ ". Original: " ++ toString originalMarks

/-- The overwrite of the original `SemesterResults` row performed by
`ResitExam.save` when the resit is completed (models.py 1518-1524).  The
source compares `self.resit_grade_point >= 2.0` directly; a `None` grade point
would raise there, so the `getD 0` default is only ever exercised under the
`resit_grade_point = some _` hypotheses of the theorems below. -/
def applyResitToResult (semName : String) (e : ResitExam)
    (res : SemesterResults) : SemesterResults :=
  { res with
    total_marks := e.resit_marks.getD 0
    grade := e.resit_grade
    grade_point := e.resit_grade_point.getD 0
    is_passed := decide (e.resit_grade_point.getD 0 ≥ 2)
    is_supplementary := true
    remarks := resitRemark semName e.original_marks }

/-- The write phase of `ResitExam.save` after `full_clean` has passed
(models.py 1512-1524): persist the exam, then, when `status = completed` and
resit marks are present, overwrite the original result row. -/
def resitPostSave (db : DB) (e : ResitExam) : DB :=
  let db1 : DB := { db with resits := upsertBy (fun o => o.pk) db.resits e }
  if e.status = "completed" ∧ e.resit_marks.isSome then
    { db1 with results := db1.results.map (fun r =>
        if r.id = e.original_result then
          applyResitToResult (semesterNameOf db1 e.resit_semester) e r
        else r) }
  else db1

/-- `ResitExam.save` (models.py 1512-1524): `full_clean`, persist, then the
completion overwrite. -/
def ResitExam.save (db : DB) (e : ResitExam) : Except String DB :=
  match ResitExam.clean db e with
  | Except.error m => Except.error m
  | Except.ok _ => Except.ok (resitPostSave db e)

/-- A grading band contains the marks and belongs to the unit: the queryset
filter of `calculate_resit_grade` (models.py 1529-1533). -/
def gradingMatches (u : Nat) (m : Rat) (g : UnitGradingSystem) : Bool :=
  decide (g.unit = u ∧ g.min_marks ≤ m ∧ m ≤ g.max_marks)

/-- `.first()` of the filtered `UnitGradingSystem` queryset.  The model's
default ordering is `['unit', '-min_marks']`; restricted to a single unit this
is the band with the greatest `min_marks`, earliest row on ties. -/
def firstGrading (gs : List UnitGradingSystem) (u : Nat) (m : Rat) :
    Option UnitGradingSystem :=
  (gs.filter (gradingMatches u m)).foldl
    (fun acc g =>
      match acc with
      | none => some g
      | some b => if b.min_marks < g.min_marks then some g else some b)
    none

/-- `self.original_result.programme_unit.unit`: the unit id behind a result
row; 0 stands for the exception a dangling foreign key would raise. -/
def unitOfResult (db : DB) (resultId : Nat) : Nat :=
  (((db.results.find? (fun r => decide (r.id = resultId))).bind
    (fun r => db.programmeUnits.find? (fun p => decide (p.id = r.programme_unit)))).map
      (fun p => p.unit)).getD 0

/-- `ResitExam.calculate_resit_grade` (models.py 1526-1539): when resit marks
are present, take the first band of the unit whose range contains them and
copy its grade and grade point; when no band matches (or marks are absent),
leave the exam unchanged.  The method then re-saves the exam; the save effect
is applied separately by the callers in this embedding. -/
def ResitExam.calculate_resit_grade (db : DB) (e : ResitExam) : ResitExam :=
  match e.resit_marks with
  | none => e
  | some m =>
    match firstGrading db.gradings (unitOfResult db e.original_result) m with
    | some g => { e with resit_grade := g.grade, resit_grade_point := some g.grade_point }
    | none => e

/-- `register_for_resit` (src/portal/utils.py 236-271): when a resit row for
the same (student, original result, resit semester) already exists, return it
without creating; otherwise build the exam from the frozen snapshot of the
original result and save it (`objects.create` runs `ResitExam.save`, hence
`full_clean`).  The `Bool` mirrors the helper's `created` flag. -/
def register_for_resit (db : DB) (pk : Nat) (student : Nat)
    (res : SemesterResults) (resitSem : Nat) :
    Except String (DB × ResitExam × Bool) :=
  match db.resits.find? (fun o => decide (o.student = student ∧
      o.original_result = res.id ∧ o.resit_semester = resitSem)) with
  | some existing => Except.ok (db, existing, false)
  | none =>
    let e : ResitExam :=
      { pk := pk, student := student, original_result := res.id
        resit_semester := resitSem, original_semester := res.semester
        original_marks := res.total_marks, original_grade := res.grade
        original_grade_point := res.grade_point
        resit_marks := none, resit_grade := "", resit_grade_point := none
        status := "registered" }
    match ResitExam.save db e with
    | Except.error m => Except.error m
    | Except.ok db1 => Except.ok (db1, e, true)

/-- The completion flow of the source: saving the exam with `status =
completed` and marks present persists it and overwrites the original result
(models.py 1512-1524); the post-save signal `update_resit_completion`
(signals.py 8-12) then runs `calculate_resit_grade`, which fills the grade
from the bands and re-saves, repeating the (idempotent) overwrite with the
grade now set.  The stable net effect is: set marks and status, compute the
grade, then apply the save. -/
def complete_resit (db : DB) (e : ResitExam) (marks : Rat) : Except String DB :=
  let e1 := { e with resit_marks := some marks, status := "completed" }
  let e2 := ResitExam.calculate_resit_grade db e1
  ResitExam.save db e2

/-- The `ValidationError` text of the resit branch of `UnitEnrollment.clean`
(models.py 1634-1638).  The grouping keeps the quoted phrase of the claim as a
standalone leading literal. -/
def noFailedResultMsg (code : String) : String :=
  "No failed result found" ++ (" for " ++ (code ++
    ". You can only enroll for resit if you have a failed result."))

/-- `UnitEnrollment.clean` (models.py 1596-1638), checks in source order:
(a) the referenced report exists and is approved; (b) the unit has a
dean-approved allocation in this semester; (c) no other pending/approved
enrollment for the same (student, unit, semester); (d) for resit type, a
failed result for this (student, unit) exists. -/
def UnitEnrollment.clean (db : DB) (e : UnitEnrollment) : Except String Unit :=
  if ¬ ∃ rep ∈ db.reports, rep.pk = e.semester_report ∧ rep.status = "approved" then
    Except.error "You must report for the semester before enrolling in units."
  else if ¬ ∃ a ∈ db.allocations, a.programme_unit = e.programme_unit ∧
      a.semester = e.semester ∧ a.status = "approved_dean" then
    Except.error ("Unit " ++ unitCodeOf db e.programme_unit ++ " is not offered in " ++
      semesterNameOf db e.semester ++ ".")
  else if ∃ o ∈ db.enrollments, o.student = e.student ∧
      o.programme_unit = e.programme_unit ∧ o.semester = e.semester ∧
      (o.status = "pending" ∨ o.status = "approved") ∧ o.pk ≠ e.pk then
    Except.error ("You are already enrolled in " ++ unitCodeOf db e.programme_unit ++
      " for this semester.")
  else if e.enrollment_type = "resit" then
    if ∃ r ∈ db.results, r.student = e.student ∧
        r.programme_unit = e.programme_unit ∧ r.is_passed = false then
      Except.ok ()
    else
      Except.error (noFailedResultMsg (unitCodeOf db e.programme_unit))
  else Except.ok ()

/-- The write phase of `UnitEnrollment.save` after `full_clean` has passed
(models.py 1640-1656): persist the enrollment and, when approved,
`get_or_create` the mirrored `UnitRegistration` keyed by
(student, programme_unit, semester). -/
def enrollmentPostSave (db : DB) (e : UnitEnrollment) : DB :=
  let db1 : DB := { db with enrollments := upsertBy (fun o => o.pk) db.enrollments e }
  if e.status = "approved" then
    if ∃ g ∈ db1.registrations, g.student = e.student ∧
        g.programme_unit = e.programme_unit ∧ g.semester = e.semester then db1
    else
      { db1 with registrations := db1.registrations ++
          [{ student := e.student, programme_unit := e.programme_unit
             semester := e.semester, status := "registered"
             is_retake := decide (e.enrollment_type = "resit" ∨ e.enrollment_type = "retake") }] }
  else db1

/-- `UnitEnrollment.save` (models.py 1640-1656): `full_clean` (raises before
any write) then the write phase. -/
def UnitEnrollment.save (db : DB) (e : UnitEnrollment) : Except String DB :=
  match UnitEnrollment.clean db e with
  | Except.error m => Except.error m
  | Except.ok _ => Except.ok (enrollmentPostSave db e)

/-! ### Concrete instances used by witnesses and counterexamples -/

/-- An enrollment period whose resit window start is unset. -/
def C10p : EnrollmentPeriod :=
  { start_date := 0, end_date := 10, resit_start_date := none
    resit_end_date := some 5, is_active := true }

/-- A student row: year 1, semester "2". -/
def exStudent : Student := { id := 1, current_year := 1, current_semester := "2" }

/-- A pending, eligible report advancing student 1 to (year 2, semester "1")
in semester 4. -/
def C2r : SemesterReport :=
  { pk := 1, student := 1, to_semester := 4, to_year_of_study := 2
    to_semester_number := "1", failed_units_count := 0, is_eligible := false
    eligibility_checked_at := none, eligibility_remarks := "", status := "approved" }

def C2db0 : DB := { emptyDB with students := [exStudent] }

def C2r1 : SemesterReport := stampEligibility C2r 5

def C2db1 : DB := reportPostSave C2db0 C2r1

def C2r2 : SemesterReport := stampEligibility C2r1 6

def C2db2 : DB := reportPostSave C2db1 C2r2

/-- A report filed with 3 failed units. -/
def C3r : SemesterReport :=
  { pk := 1, student := 1, to_semester := 4, to_year_of_study := 2
    to_semester_number := "1", failed_units_count := 3, is_eligible := false
    eligibility_checked_at := none, eligibility_remarks := "", status := "pending" }

def C3db : DB := { emptyDB with students := [exStudent] }

/-- A pending report of student 1 for target semester 4. -/
def C4pending : SemesterReport :=
  { pk := 1, student := 1, to_semester := 4, to_year_of_study := 1
    to_semester_number := "2", failed_units_count := 0, is_eligible := true
    eligibility_checked_at := some 1, eligibility_remarks := "", status := "pending" }

def C4db : DB := { emptyDB with students := [exStudent], reports := [C4pending] }

/-- A second report of the same student for the same target semester. -/
def C4r2 : SemesterReport :=
  { pk := 2, student := 1, to_semester := 4, to_year_of_study := 1
    to_semester_number := "2", failed_units_count := 0, is_eligible := false
    eligibility_checked_at := none, eligibility_remarks := "", status := "pending" }

/-- The non-terminal-duplicate predicate of the claim: a report of student 1
for target semester 4 whose status is pending or approved. -/
def nonTerminalFor14 (o : SemesterReport) : Bool :=
  decide (o.student = 1 ∧ o.to_semester = 4 ∧
    (o.status = "pending" ∨ o.status = "approved"))

/-- An approved report of student 1 for target semester 4. -/
def C4approved : SemesterReport :=
  { C4pending with status := "approved" }

def C4adb : DB := { emptyDB with students := [exStudent], reports := [C4approved] }

/-- The failed original attempt: 40 marks, grade E, failed. -/
def C5res : SemesterResults :=
  { id := 1, student := 1, programme_unit := 1, semester := 1, total_marks := 40
    grade := "E", grade_point := 0, is_passed := false, is_supplementary := false
    remarks := "" }

/-- Grading bands A[70-100]/B[60-69]/C[50-59]/D[40-49]/E[0-39] for unit 1. -/
def C5bands : List UnitGradingSystem :=
  [ { unit := 1, grade := "A", min_marks := 70, max_marks := 100, grade_point := 4, is_pass := true }
  , { unit := 1, grade := "B", min_marks := 60, max_marks := 69, grade_point := 3, is_pass := true }
  , { unit := 1, grade := "C", min_marks := 50, max_marks := 59, grade_point := 2, is_pass := true }
  , { unit := 1, grade := "D", min_marks := 40, max_marks := 49, grade_point := 1, is_pass := false }
  , { unit := 1, grade := "E", min_marks := 0, max_marks := 39, grade_point := 0, is_pass := false } ]

/-- State before registering the resit: the failed result, a dean-approved
allocation of its unit in semester 2, and the grading bands. -/
def C5db0 : DB :=
  { emptyDB with
    results := [C5res]
    allocations := [{ programme_unit := 1, semester := 2, status := "approved_dean" }]
    gradings := C5bands
    programmeUnits := [{ id := 1, unit := 1 }]
    units := [{ id := 1, code := "CSC101" }]
    semesters := [{ pk := 2, academic_year := 1, name := "Semester 2 - 2024/2025"
                    semester_number := "2", is_current := true }] }

/-- The exam row `register_for_resit` builds from the frozen snapshot. -/
def C5e0 : ResitExam :=
  { pk := 1, student := 1, original_result := 1, resit_semester := 2
    original_semester := 1, original_marks := 40, original_grade := "E"
    original_grade_point := 0, resit_marks := none, resit_grade := ""
    resit_grade_point := none, status := "registered" }

/-- State after registering the resit. -/
def C5db1 : DB := resitPostSave C5db0 C5e0

/-- The exam after completion with marks 65: status completed, marks set, and
the grade computed from the bands. -/
def C5e2 : ResitExam :=
  ResitExam.calculate_resit_grade C5db1
    { C5e0 with resit_marks := some 65, status := "completed" }

/-- State after the completing save. -/
def C5db2 : DB := resitPostSave C5db1 C5e2

/-- A registered resit exam with marks 55 against the C5 bands. -/
def C6e : ResitExam :=
  { pk := 2, student := 1, original_result := 1, resit_semester := 2
    original_semester := 1, original_marks := 40, original_grade := "E"
    original_grade_point := 0, resit_marks := some 55, resit_grade := ""
    resit_grade_point := none, status := "registered" }

/-- The band C[50-59] of unit 1. -/
def C6g : UnitGradingSystem :=
  { unit := 1, grade := "C", min_marks := 50, max_marks := 59, grade_point := 2, is_pass := true }

/-- An approved report plus an offered unit, but no failed result anywhere. -/
def C7db : DB :=
  { emptyDB with
    reports := [{ pk := 3, student := 1, to_semester := 2, to_year_of_study := 1
                  to_semester_number := "2", failed_units_count := 0, is_eligible := true
                  eligibility_checked_at := some 1, eligibility_remarks := ""
                  status := "approved" }]
    allocations := [{ programme_unit := 1, semester := 2, status := "approved_dean" }]
    programmeUnits := [{ id := 1, unit := 1 }]
    units := [{ id := 1, code := "CSC101" }]
    semesters := [{ pk := 2, academic_year := 1, name := "Semester 2 - 2024/2025"
                    semester_number := "2", is_current := true }] }

/-- A resit-type enrollment attempt for a unit with no failed result. -/
def C7e : UnitEnrollment :=
  { pk := 1, student := 1, semester_report := 3, programme_unit := 1
    semester := 2, enrollment_type := "resit", status := "pending" }

/-- The current semester already in the store. -/
def C8sem1 : Semester :=
  { pk := 1, academic_year := 1, name := "Semester 1 - 2024/2025"
    semester_number := "1", is_current := true }

/-- A second semester row also flagged current. -/
def C8sem2 : Semester :=
  { pk := 2, academic_year := 1, name := "Semester 2 - 2024/2025"
    semester_number := "2", is_current := true }

def C8db : DB := { emptyDB with semesters := [C8sem1] }

/-- A store holding both a current academic year and a current semester. -/
def C8db2 : DB :=
  { emptyDB with
    years := [{ pk := 1, name := "2024/2025", is_current := true, is_active := true }]
    semesters := [C8sem1] }

/-- A second academic year also flagged current. -/
def C8y2 : AcademicYear :=
  { pk := 2, name := "2025/2026", is_current := true, is_active := true }

/-- An eligible report to be persisted at time 11. -/
def C9r : SemesterReport :=
  { pk := 2, student := 1, to_semester := 5, to_year_of_study := 1
    to_semester_number := "2", failed_units_count := 1, is_eligible := false
    eligibility_checked_at := none, eligibility_remarks := "", status := "pending" }

def C9db : DB := { emptyDB with students := [exStudent] }

def C9db1 : DB := reportPostSave C9db (stampEligibility C9r 11)

/-! ### Helper lemmas -/

@[simp]
lemma stampEligibility_pk (r : SemesterReport) (n : Nat) :
    (stampEligibility r n).pk = r.pk := rfl

@[simp]
lemma stampEligibility_student (r : SemesterReport) (n : Nat) :
    (stampEligibility r n).student = r.student := rfl

@[simp]
lemma stampEligibility_to_semester (r : SemesterReport) (n : Nat) :
    (stampEligibility r n).to_semester = r.to_semester := rfl

@[simp]
lemma stampEligibility_to_year_of_study (r : SemesterReport) (n : Nat) :
    (stampEligibility r n).to_year_of_study = r.to_year_of_study := rfl

@[simp]
lemma stampEligibility_to_semester_number (r : SemesterReport) (n : Nat) :
    (stampEligibility r n).to_semester_number = r.to_semester_number := rfl

@[simp]
lemma stampEligibility_failed_units_count (r : SemesterReport) (n : Nat) :
    (stampEligibility r n).failed_units_count = r.failed_units_count := rfl

@[simp]
lemma stampEligibility_status (r : SemesterReport) (n : Nat) :
    (stampEligibility r n).status = r.status := rfl

lemma stampEligibility_is_eligible (r : SemesterReport) (n : Nat) :
    (stampEligibility r n).is_eligible = decide (r.failed_units_count ≤ 2) := rfl

lemma stampEligibility_checked_at (r : SemesterReport) (n : Nat) :
    (stampEligibility r n).eligibility_checked_at = some n := rfl

lemma reportPostSave_students (db : DB) (r : SemesterReport) :
    (reportPostSave db r).students =
      if r.status = "approved" then db.students.map (advanceStudent r)
      else db.students := by
  unfold reportPostSave
  by_cases h : r.status = "approved" <;> simp [h]

lemma reportPostSave_reports (db : DB) (r : SemesterReport) :
    (reportPostSave db r).reports = upsertBy (fun o => o.pk) db.reports r := by
  unfold reportPostSave
  by_cases h : r.status = "approved" <;> simp [h]

lemma advanceStudent_advanceStudent (a b : SemesterReport)
    (hs : a.student = b.student) (hy : a.to_year_of_study = b.to_year_of_study)
    (hm : a.to_semester_number = b.to_semester_number) (s : Student) :
    advanceStudent a (advanceStudent b s) = advanceStudent b s := by
  unfold advanceStudent
  by_cases h : s.id = b.student
  · simp [h, hs, hy, hm]
  · simp [h, hs]

/-! ### Claim theorems -/

/-- Claim C1 (code bug).  The next-(year, semester) rule stated by the claim is
exactly `calculate_next_semester_details` from utils.py (first conjunct), but
the computation inlined in `semester_report_view` — the code path that actually
files reports — tests the literal `3` instead of the semesters-per-year of the
programme: at the failing input (current_year 1, current_semester "2",
programme with total_semesters 8, hence 2 semesters per year) the view files a
report targeting (1, "3") where the claim requires (2, "1"). -/
theorem C1_view_next_semester_bug :
    (∀ y s t, calculate_next_semester_details y s t = specNextSemester y s t) ∧
    viewNextSemester 1 "2" = (1, "3") ∧
    specNextSemester 1 "2" 8 = (2, "1") ∧
    viewNextSemester 1 "2" ≠ specNextSemester 1 "2" 8 :=
  ⟨fun _ _ _ => rfl, by decide, by decide, by decide⟩

/-- Claim C2.  Saving an approved `SemesterReport` a second time leaves every
student row exactly as it was after the first approved save: the write-back is
an absolute assignment of the report's `to_` fields, so repeating it cannot
double-advance. -/
theorem C2_repeated_approval_is_noop (db db1 db2 : DB)
    (r r1 r2 : SemesterReport) (n1 n2 : Nat)
    (happr : r.status = "approved")
    (h1 : SemesterReport.save db r n1 = Except.ok (db1, r1))
    (h2 : SemesterReport.save db1 r1 n2 = Except.ok (db2, r2)) :
    db2.students = db1.students := by
  unfold SemesterReport.save at h1 h2
  cases hc1 : SemesterReport.clean db (stampEligibility r n1) with
  | error m => rw [hc1] at h1; exact Except.noConfusion h1
  | ok u1 =>
    rw [hc1] at h1
    injection h1 with h1
    injection h1 with hdb1 hr1
    cases hc2 : SemesterReport.clean db1 (stampEligibility r1 n2) with
    | error m => rw [hc2] at h2; exact Except.noConfusion h2
    | ok u2 =>
      rw [hc2] at h2
      injection h2 with h2
      injection h2 with hdb2 hr2
      subst hdb1
      subst hdb2
      subst hr1
      rw [reportPostSave_students, reportPostSave_students]
      rw [if_pos (by simpa using happr), if_pos (by simpa using happr)]
      rw [List.map_map]
      have hfun :
          advanceStudent (stampEligibility (stampEligibility r n1) n2) ∘
            advanceStudent (stampEligibility r n1) =
          advanceStudent (stampEligibility r n1) :=
        funext fun s =>
          advanceStudent_advanceStudent _ _ rfl rfl rfl s
      rw [hfun]

/-- Claim C2 witness: an approved report saved twice over a one-student store. -/
theorem C2_repeated_approval_is_noop_witness : C2db2.students = C2db1.students :=
  C2_repeated_approval_is_noop C2db0 C2db1 C2db2 C2r C2r1 C2r2 5 6 rfl rfl rfl

/-- Claim C3.  With more than 2 failed units, `SemesterReport.save` raises the
ineligibility ValidationError before any write (so the store is untouched), the
stamped report carries `is_eligible = false`, and saving the same report again
under any status — in particular "approved" — fails the same way, so no
approval can ever reach the student row. -/
theorem C3_excess_failed_units_blocks_report (db : DB) (r : SemesterReport)
    (now : Nat) (h : r.failed_units_count > 2) :
    SemesterReport.save db r now = Except.error (ineligibleMsg r.failed_units_count) ∧
    (stampEligibility r now).is_eligible = false ∧
    ∀ (db2 : DB) (n : Nat) (st : String),
      SemesterReport.save db2 { r with status := st } n =
        Except.error (ineligibleMsg r.failed_units_count) := by
  have key : ∀ (db2 : DB) (n : Nat) (r2 : SemesterReport),
      r2.failed_units_count = r.failed_units_count →
      SemesterReport.save db2 r2 n = Except.error (ineligibleMsg r.failed_units_count) := by
    intro db2 n r2 hf
    have hc : SemesterReport.clean db2 (stampEligibility r2 n) =
        Except.error (ineligibleMsg r.failed_units_count) := by
      unfold SemesterReport.clean
      rw [stampEligibility_failed_units_count, hf, if_pos h]
    unfold SemesterReport.save
    rw [hc]
  refine ⟨key db now r rfl, ?_, fun db2 n st => key db2 n _ rfl⟩
  rw [stampEligibility_is_eligible]
  simp only [decide_eq_false_iff_not]
  omega

/-- Claim C3 witness: a report with 3 failed units is rejected. -/
theorem C3_excess_failed_units_blocks_report_witness :
    SemesterReport.save C3db C3r 7 = Except.error (ineligibleMsg C3r.failed_units_count) :=
  (C3_excess_failed_units_blocks_report C3db C3r 7 (by decide)).1

/-- Claim C10.  `is_resit_enrollment_open` returns false whenever either resit
date is unset, regardless of `is_active` and of the current time; with both
dates set it is open exactly when the period is active and the time lies in
the closed resit window. -/
theorem C10_is_resit_enrollment_open_spec (p : EnrollmentPeriod) (now : Int) :
    ((p.resit_start_date = none ∨ p.resit_end_date = none) →
      p.is_resit_enrollment_open now = false) ∧
    (∀ s e, p.resit_start_date = some s → p.resit_end_date = some e →
      (p.is_resit_enrollment_open now = true ↔
        (p.is_active = true ∧ s ≤ now ∧ now ≤ e))) := by
  constructor
  · intro h
    unfold EnrollmentPeriod.is_resit_enrollment_open
    rcases h with h | h <;> simp [h]
  · intro s e hs he
    unfold EnrollmentPeriod.is_resit_enrollment_open
    simp [hs, he, and_assoc]

/-- Claim C10 witness: a period with no resit start date is closed even while
active. -/
theorem C10_is_resit_enrollment_open_spec_witness :
    C10p.is_resit_enrollment_open 3 = false :=
  (C10_is_resit_enrollment_open_spec C10p 3).1 (Or.inl rfl)

/-- Claim C4 counterexample.  With one pending report of student 1 for target
semester 4 in the store, saving a second report for the same pair does not
fail with a duplicate error: the save succeeds and the store then holds two
non-terminal (pending/approved) reports for that (student, target semester),
refuting the claim as stated.  (`SemesterReport.clean` only rejects an
`approved` duplicate.) -/
theorem C4_pending_duplicate_not_rejected :
    SemesterReport.save C4db C4r2 3 =
      Except.ok (reportPostSave C4db (stampEligibility C4r2 3), stampEligibility C4r2 3) ∧
    C4db.reports.countP nonTerminalFor14 = 1 ∧
    (reportPostSave C4db (stampEligibility C4r2 3)).reports.countP nonTerminalFor14 = 2 :=
  ⟨rfl, by decide, by decide⟩

/-- Claim C4 as amended.  Model validation rejects a duplicate only when an
`approved` report for the same (student, target semester) already exists (with
a different pk): then the save fails with the duplicate ValidationError.  A
merely pending duplicate passes validation; only the filing view separately
short-circuits (without raising) when a pending or approved report exists. -/
theorem C4_approved_duplicate_rejected (db : DB) (r : SemesterReport) (now : Nat)
    (hfail : r.failed_units_count ≤ 2)
    (hdup : ∃ o ∈ db.reports, o.student = r.student ∧ o.to_semester = r.to_semester ∧
      o.status = "approved" ∧ o.pk ≠ r.pk) :
    SemesterReport.save db r now =
      Except.error "You have already reported for this semester." := by
  have hc : SemesterReport.clean db (stampEligibility r now) =
      Except.error "You have already reported for this semester." := by
    unfold SemesterReport.clean
    simp only [stampEligibility_failed_units_count, stampEligibility_student,
      stampEligibility_to_semester, stampEligibility_pk]
    rw [if_neg (by omega), if_pos hdup]
  unfold SemesterReport.save
  rw [hc]

/-- Claim C4 witness (amended): with an approved report for (student 1,
semester 4) present, a second report for the same pair is rejected. -/
theorem C4_approved_duplicate_rejected_witness :
    SemesterReport.save C4adb C4r2 9 =
      Except.error "You have already reported for this semester." :=
  C4_approved_duplicate_rejected C4adb C4r2 9 (by decide) (by decide)

/-- Claim C8 counterexample.  `Semester` has no `save` override, so Django's
default save runs no validation: saving a second semester flagged current
while semester 1 is already current succeeds and leaves two current semesters,
refuting "this invariant is preserved by every save". -/
theorem C8_second_current_semester_saved :
    ((Semester.save C8db C8sem2).semesters.countP (fun s => s.is_current)) = 2 := by
  decide

/-- Claim C8 as amended.  `AcademicYear.save` runs `full_clean` and rejects a
second current year; the analogous check for `Semester` exists only in
`Semester.clean`, which `Semester.save` never invokes, so the semester
invariant is enforced only on code paths that call `full_clean` (such as model
forms), not by every save. -/
theorem C8_current_flag_enforcement (db : DB) (y : AcademicYear) (s : Semester)
    (hy : y.is_current = true) (hs : s.is_current = true)
    (hyd : ∃ o ∈ db.years, o.is_current = true ∧ o.pk ≠ y.pk)
    (hsd : ∃ o ∈ db.semesters, o.is_current = true ∧ o.pk ≠ s.pk) :
    AcademicYear.save db y =
      Except.error "There can only be one current academic year." ∧
    Semester.clean db s =
      Except.error "There can only be one current semester." := by
  constructor
  · have hc : AcademicYear.clean db y =
        Except.error "There can only be one current academic year." := by
      unfold AcademicYear.clean
      rw [if_pos ⟨hy, hyd⟩]
    unfold AcademicYear.save
    rw [hc]
  · unfold Semester.clean
    rw [if_pos ⟨hs, hsd⟩]

/-- Claim C8 witness (amended): a second current academic year is rejected by
`AcademicYear.save`. -/
theorem C8_current_flag_enforcement_witness :
    AcademicYear.save C8db2 C8y2 =
      Except.error "There can only be one current academic year." :=
  (C8_current_flag_enforcement C8db2 C8y2 C8sem2 rfl rfl (by decide) (by decide)).1

/-- Claim C9.  Every successful `SemesterReport.save` persists a report with
`failed_units_count ≤ 2`, a recomputed `is_eligible = true`, and
`eligibility_checked_at` stamped with the save-time clock; the only write to
the reports table is the upsert of that stamped report. -/
theorem C9_persisted_report_eligible (db db2 : DB) (r r2 : SemesterReport)
    (now : Nat) (h : SemesterReport.save db r now = Except.ok (db2, r2)) :
    r2.failed_units_count ≤ 2 ∧ r2.is_eligible = true ∧
    r2.eligibility_checked_at = some now ∧
    db2.reports = upsertBy (fun o => o.pk) db.reports r2 := by
  unfold SemesterReport.save at h
  cases hc : SemesterReport.clean db (stampEligibility r now) with
  | error m => rw [hc] at h; exact Except.noConfusion h
  | ok u =>
    rw [hc] at h
    injection h with h
    injection h with hdb hr
    have hle : r.failed_units_count ≤ 2 := by
      by_contra hgt
      unfold SemesterReport.clean at hc
      rw [stampEligibility_failed_units_count, if_pos (by omega)] at hc
      exact Except.noConfusion hc
    subst hr
    subst hdb
    refine ⟨by simpa using hle, ?_, stampEligibility_checked_at r now, ?_⟩
    · rw [stampEligibility_is_eligible]
      simpa using hle
    · rw [reportPostSave_reports]

/-- Claim C9 witness: a concrete save at time 11 stamps `is_eligible = true`. -/
theorem C9_persisted_report_eligible_witness :
    (stampEligibility C9r 11).is_eligible = true :=
  (C9_persisted_report_eligible C9db C9db1 C9r (stampEligibility C9r 11) 11 rfl).2.1

lemma find?_map_update {α : Type} (p : α → Nat) (t : Nat) (f : α → α)
    (hf : ∀ a, p (f a) = p a) :
    ∀ (l : List α) (x : α),
      l.find? (fun a => decide (p a = t)) = some x →
      (l.map (fun a => if p a = t then f a else a)).find?
        (fun a => decide (p a = t)) = some (f x) := by
  intro l
  induction l with
  | nil => intro x hx; simp at hx
  | cons a l ih =>
    intro x hx
    by_cases ha : p a = t
    · rw [List.find?_cons_of_pos _ (by simpa using ha)] at hx
      injection hx with hx
      subst hx
      rw [List.map_cons, if_pos ha, List.find?_cons_of_pos _ (by simp [hf, ha])]
    · rw [List.find?_cons_of_neg _ (by simpa using ha)] at hx
      rw [List.map_cons, if_neg ha, List.find?_cons_of_neg _ (by simpa using ha)]
      exact ih x hx

lemma foldl_firstGrading_of_all_eq (g : UnitGradingSystem) :
    ∀ (l : List UnitGradingSystem), (∀ x ∈ l, x = g) →
      l.foldl (fun acc x =>
        match acc with
        | none => some x
        | some b => if b.min_marks < x.min_marks then some x else some b)
        (some g) = some g := by
  intro l
  induction l with
  | nil => intro _; rfl
  | cons x t ih =>
    intro h
    have hx : x = g := h x (by simp)
    have h2 : ∀ y ∈ t, y = g := fun y hy => h y (by simp [hy])
    rw [List.foldl_cons, hx]
    show List.foldl _ (if g.min_marks < g.min_marks then some g else some g) t = some g
    rw [if_neg (lt_irrefl _)]
    exact ih h2

lemma filter_all_false_eq_nil {α : Type} (p : α → Bool) :
    ∀ l : List α, (∀ a ∈ l, p a = false) → l.filter p = [] := by
  intro l
  induction l with
  | nil => intro _; rfl
  | cons a t ih =>
    intro h
    rw [List.filter_cons, h a (by simp)]
    simpa using ih (fun b hb => h b (by simp [hb]))

lemma firstGrading_eq_of_unique (gs : List UnitGradingSystem) (u : Nat) (m : Rat)
    (g : UnitGradingSystem) (hg : g ∈ gs) (hmatch : gradingMatches u m g = true)
    (huniq : ∀ g2 ∈ gs, gradingMatches u m g2 = true → g2 = g) :
    firstGrading gs u m = some g := by
  unfold firstGrading
  have hmem : g ∈ gs.filter (gradingMatches u m) := List.mem_filter.mpr ⟨hg, hmatch⟩
  have hall : ∀ x ∈ gs.filter (gradingMatches u m), x = g := by
    intro x hx
    have hx2 := List.mem_filter.mp hx
    exact huniq x hx2.1 hx2.2
  cases hfe : gs.filter (gradingMatches u m) with
  | nil => rw [hfe] at hmem; simp at hmem
  | cons a t =>
    rw [hfe] at hall
    have ha : a = g := hall a (by simp)
    rw [List.foldl_cons, ha]
    exact foldl_firstGrading_of_all_eq g t (fun x hx => hall x (by simp [hx]))

lemma firstGrading_none_of_no_match (gs : List UnitGradingSystem) (u : Nat)
    (m : Rat) (h : ∀ g ∈ gs, gradingMatches u m g = false) :
    firstGrading gs u m = none := by
  unfold firstGrading
  rw [filter_all_false_eq_nil _ gs h]
  rfl

/-- Claim C5.  A `ResitExam.save` with status completed, marks and grade point
present, overwrites the original `SemesterResults` row: `total_marks` becomes
the resit marks, `grade`/`grade_point` become the resit grade and grade point,
`is_passed` holds exactly when the resit grade point is at least 2.0,
`is_supplementary` becomes true, and the remark recording the original marks is
written onto the row. -/
theorem C5_resit_completion_overwrites (db db2 : DB) (e : ResitExam)
    (res : SemesterResults) (m gp : Rat)
    (hst : e.status = "completed") (hm : e.resit_marks = some m)
    (hgp : e.resit_grade_point = some gp)
    (hres : db.results.find? (fun r => decide (r.id = e.original_result)) = some res)
    (hsave : ResitExam.save db e = Except.ok db2) :
    db2.results.find? (fun r => decide (r.id = e.original_result)) =
      some (applyResitToResult (semesterNameOf db e.resit_semester) e res) ∧
    (applyResitToResult (semesterNameOf db e.resit_semester) e res).total_marks = m ∧
    (applyResitToResult (semesterNameOf db e.resit_semester) e res).grade = e.resit_grade ∧
    (applyResitToResult (semesterNameOf db e.resit_semester) e res).grade_point = gp ∧
    ((applyResitToResult (semesterNameOf db e.resit_semester) e res).is_passed = true ↔
      gp ≥ 2) ∧
    (applyResitToResult (semesterNameOf db e.resit_semester) e res).is_supplementary = true ∧
    (applyResitToResult (semesterNameOf db e.resit_semester) e res).remarks =
      resitRemark (semesterNameOf db e.resit_semester) e.original_marks := by
  unfold ResitExam.save at hsave
  cases hc : ResitExam.clean db e with
  | error m2 => rw [hc] at hsave; exact Except.noConfusion hsave
  | ok u =>
    rw [hc] at hsave
    injection hsave with hdb
    subst hdb
    refine ⟨?_, ?_, rfl, ?_, ?_, rfl, rfl⟩
    · unfold resitPostSave
      rw [if_pos ⟨hst, by rw [hm]; rfl⟩]
      exact find?_map_update (fun r => r.id) e.original_result
        (applyResitToResult (semesterNameOf db e.resit_semester) e)
        (fun a => (rfl :
          (applyResitToResult (semesterNameOf db e.resit_semester) e a).id = a.id))
        db.results res hres
    · show e.resit_marks.getD 0 = m
      rw [hm]; rfl
    · show e.resit_grade_point.getD 0 = gp
      rw [hgp]; rfl
    · show decide (e.resit_grade_point.getD 0 ≥ 2) = true ↔ gp ≥ 2
      rw [hgp]
      simp

/-- Round-trip setup for claim C5: registering the resit persists the snapshot
exam row. -/
theorem register_for_resit_roundtrip_step :
    register_for_resit C5db0 1 1 C5res 2 = Except.ok (C5db1, C5e0, true) := rfl

/-- Round-trip setup for claim C5: completing with marks 65 computes grade "B"
(grade point 3) from the bands and saves, reaching `C5db2`. -/
theorem complete_resit_roundtrip_step :
    complete_resit C5db1 C5e0 65 = Except.ok C5db2 ∧
    C5e2.resit_grade = "B" ∧ C5e2.resit_marks = some 65 := ⟨rfl, rfl, rfl⟩

/-- Claim C5 witness: after register (marks 40, grade E) and complete with
marks 65, the stored original result row is the overwritten one. -/
theorem C5_resit_completion_overwrites_witness :
    C5db2.results.find? (fun r => decide (r.id = C5e2.original_result)) =
      some (applyResitToResult (semesterNameOf C5db1 C5e2.resit_semester) C5e2 C5res) :=
  (C5_resit_completion_overwrites C5db1 C5db2 C5e2 C5res 65 3 rfl rfl rfl rfl rfl).1

/-- Claim C6.  With resit marks present, `calculate_resit_grade` copies the
grade and grade point of the band of the unit containing the marks (the unique
containing band, matching the queryset's `.first()`), and leaves the exam
unchanged — grade and grade point stay unset — when no band of the unit
contains the marks. -/
theorem C6_calculate_resit_grade_band_selection (db : DB) (e : ResitExam)
    (m : Rat) (hm : e.resit_marks = some m) :
    (∀ g ∈ db.gradings,
      g.unit = unitOfResult db e.original_result →
      g.min_marks ≤ m → m ≤ g.max_marks →
      (∀ g2 ∈ db.gradings, g2.unit = unitOfResult db e.original_result →
        g2.min_marks ≤ m → m ≤ g2.max_marks → g2 = g) →
      (ResitExam.calculate_resit_grade db e).resit_grade = g.grade ∧
      (ResitExam.calculate_resit_grade db e).resit_grade_point = some g.grade_point) ∧
    ((∀ g ∈ db.gradings, g.unit = unitOfResult db e.original_result →
        ¬ (g.min_marks ≤ m ∧ m ≤ g.max_marks)) →
      ResitExam.calculate_resit_grade db e = e) := by
  have hcalc : ResitExam.calculate_resit_grade db e =
      (match firstGrading db.gradings (unitOfResult db e.original_result) m with
       | some g => { e with resit_grade := g.grade, resit_grade_point := some g.grade_point }
       | none => e) := by
    unfold ResitExam.calculate_resit_grade
    rw [hm]
  constructor
  · intro g hg hunit hmin hmax huniq
    have hfg : firstGrading db.gradings (unitOfResult db e.original_result) m = some g :=
      firstGrading_eq_of_unique _ _ _ g hg
        (by simp [gradingMatches, hunit, hmin, hmax])
        (fun g2 hg2 hm2 => by
          have hp := of_decide_eq_true hm2
          exact huniq g2 hg2 hp.1 hp.2.1 hp.2.2)
    rw [hcalc, hfg]
    exact ⟨rfl, rfl⟩
  · intro hno
    have hfg : firstGrading db.gradings (unitOfResult db e.original_result) m = none :=
      firstGrading_none_of_no_match _ _ _ (fun g hg => by
        simp only [gradingMatches, decide_eq_false_iff_not]
        intro hp
        exact hno g hg hp.1 ⟨hp.2.1, hp.2.2⟩)
    rw [hcalc, hfg]

/-- Claim C6 witness: marks 55 against bands A[70-100]/B[60-69]/C[50-59]/
D[40-49]/E[0-39] resolve to grade "C". -/
theorem C6_calculate_resit_grade_band_selection_witness :
    (ResitExam.calculate_resit_grade C5db0 C6e).resit_grade = "C" :=
  ((C6_calculate_resit_grade_band_selection C5db0 C6e 55 rfl).1 C6g
    (by decide) (by decide) (by decide) (by decide) (by decide)).1

/-- Claim C7.  A resit-type enrollment with no failed result for the
(student, unit) pair can never be saved — `full_clean` raises before any
write, so no `UnitEnrollment` row is created — and when the preceding checks
(approved report, offered unit, no duplicate enrollment) pass, the error is
precisely the "No failed result found" message. -/
theorem C7_resit_enrollment_requires_failed_result (db : DB) (e : UnitEnrollment)
    (htype : e.enrollment_type = "resit")
    (hnofail : ¬ ∃ r ∈ db.results, r.student = e.student ∧
        r.programme_unit = e.programme_unit ∧ r.is_passed = false) :
    (∀ db2 : DB, UnitEnrollment.save db e ≠ Except.ok db2) ∧
    ((∃ rep ∈ db.reports, rep.pk = e.semester_report ∧ rep.status = "approved") →
     (∃ a ∈ db.allocations, a.programme_unit = e.programme_unit ∧
        a.semester = e.semester ∧ a.status = "approved_dean") →
     (¬ ∃ o ∈ db.enrollments, o.student = e.student ∧
        o.programme_unit = e.programme_unit ∧ o.semester = e.semester ∧
        (o.status = "pending" ∨ o.status = "approved") ∧ o.pk ≠ e.pk) →
     UnitEnrollment.save db e =
       Except.error (noFailedResultMsg (unitCodeOf db e.programme_unit)) ∧
     ∃ rest, noFailedResultMsg (unitCodeOf db e.programme_unit) =
       "No failed result found" ++ rest) := by
  have hclean : ∃ msg, UnitEnrollment.clean db e = Except.error msg := by
    unfold UnitEnrollment.clean
    by_cases h1 : ∃ rep ∈ db.reports, rep.pk = e.semester_report ∧ rep.status = "approved"
    · rw [if_neg (not_not_intro h1)]
      by_cases h2 : ∃ a ∈ db.allocations, a.programme_unit = e.programme_unit ∧
          a.semester = e.semester ∧ a.status = "approved_dean"
      · rw [if_neg (not_not_intro h2)]
        by_cases h3 : ∃ o ∈ db.enrollments, o.student = e.student ∧
            o.programme_unit = e.programme_unit ∧ o.semester = e.semester ∧
            (o.status = "pending" ∨ o.status = "approved") ∧ o.pk ≠ e.pk
        · rw [if_pos h3]; exact ⟨_, rfl⟩
        · rw [if_neg h3, if_pos htype, if_neg hnofail]; exact ⟨_, rfl⟩
      · rw [if_pos h2]; exact ⟨_, rfl⟩
    · rw [if_pos h1]; exact ⟨_, rfl⟩
  constructor
  · intro db2 hcontra
    obtain ⟨msg, hmsg⟩ := hclean
    unfold UnitEnrollment.save at hcontra
    rw [hmsg] at hcontra
    exact Except.noConfusion hcontra
  · intro hrep halloc hnodup
    have hc : UnitEnrollment.clean db e =
        Except.error (noFailedResultMsg (unitCodeOf db e.programme_unit)) := by
      unfold UnitEnrollment.clean
      rw [if_neg (not_not_intro hrep), if_neg (not_not_intro halloc), if_neg hnodup,
        if_pos htype, if_neg hnofail]
    refine ⟨?_, ⟨_, rfl⟩⟩
    unfold UnitEnrollment.save
    rw [hc]

/-- Claim C7 witness: with an approved report and an offered unit but no
failed result, a resit enrollment attempt fails with the "No failed result
found" message. -/
theorem C7_resit_enrollment_requires_failed_result_witness :
    UnitEnrollment.save C7db C7e =
      Except.error (noFailedResultMsg (unitCodeOf C7db C7e.programme_unit)) :=
  ((C7_resit_enrollment_requires_failed_result C7db C7e rfl (by decide)).2
    (by decide) (by decide) (by decide)).1

end Portal
